import Mathlib

/-!
Shallow embedding of the crop-damage verification app (`src/app.py`).

The app retrieves, per analysis run, up to four satellite composites
(SAR baseline/event from `sar_composite`, optical baseline/event from
`optical_composite`); each composite is absent (`None`) when the image
collection for the window is empty.  `safe_mean` reduces an image band to
its AOI spatial mean: it returns `None` for an absent image, and the mean
itself may be absent.  We model a run's backend responses as an `Env`:
each composite is an `Option` of a record carrying the AOI means of the
bands/derived indices the app actually reduces (VV backscatter for SAR;
NDWI = normalizedDifference B3,B8 and NDVI = normalizedDifference B8,B4
for optical).  Index values are embedded as rationals.

Python runtime errors are embedded explicitly: calling a method on an
absent composite raises `AttributeError`, and arithmetic or comparison on
`None` raises `TypeError`; analyzers that can raise return `Except`.
-/

/-- Coarse classes of Python runtime exceptions the script can raise. -/
inductive PyError where
  | attributeError : PyError
  | typeError : PyError
deriving Repr, DecidableEq

/-- A present SAR composite, reduced to what the app reads from it:
the AOI spatial mean of the VV band (`safe_mean(…, "VV", aoi)`), which the
backend may fail to produce. -/
structure SarImage where
  vvMean : Option ℚ
deriving Repr, DecidableEq

/-- A present optical composite, reduced to what the app reads from it:
the AOI spatial means of `normalizedDifference(["B3","B8"])` (NDWI) and of
`normalizedDifference(["B8","B4"])` (NDVI). -/
structure OpticalImage where
  ndwiMean : Option ℚ
  ndviMean : Option ℚ
deriving Repr, DecidableEq

/-- Backend responses for one analysis run: the four composites of
`analyze_flood` / `analyze_cyclone` (drought uses only the optical pair).
`none` is the absent composite (empty collection in `optical_composite` /
`sar_composite`). -/
structure Env where
  sarBaseline : Option SarImage
  sarEvent : Option SarImage
  optBaseline : Option OpticalImage
  optEvent : Option OpticalImage
deriving Repr, DecidableEq

/-- `safe_mean(image, "VV", aoi)`: `None` when the image is absent,
otherwise the backend's optional spatial mean of the VV band. -/
def safe_mean_vv : Option SarImage → Option ℚ
  | none => none
  | some img => img.vvMean

/-- The guarded NDWI mean of `analyze_flood`:
`safe_mean(opt.normalizedDifference(["B3","B8"]).rename("NDWI"), "NDWI", aoi) if opt else None`. -/
def guarded_ndwi : Option OpticalImage → Option ℚ
  | none => none
  | some img => img.ndwiMean

/-- Python's `x is not None and p(x)` on an optional value. -/
def optTest (o : Option ℚ) (p : ℚ → Bool) : Bool :=
  match o with
  | none => false
  | some v => p v

/-- The change pattern `after - before if before is not None and after is not None else None`. -/
def optDelta : Option ℚ → Option ℚ → Option ℚ
  | some b, some a => some (a - b)
  | _, _ => none

/-- Flood decision rules, `src/app.py` lines 141-149:
`if sar_change is not None and sar_change <= -3` then open-water/High, `elif
ndwi_change is not None and ndwi_change >= 0.15` then waterlogging/Medium,
else no-signal/Low. Returns (assessment, confidence). -/
def flood_rules (sar_change ndwi_change : Option ℚ) : String × String :=
  if optTest sar_change (fun s => decide (s ≤ -3)) then
    ("Open water flooding detected", "High")
  else if optTest ndwi_change (fun w => decide (mkRat 15 100 ≤ w)) then
    ("Surface water / waterlogging detected", "Medium")
  else
    ("No strong flood signal detected", "Low")

/-- Drought decision rules, `src/app.py` lines 177-185. -/
def drought_rules (ndvi_change : Option ℚ) : String × String :=
  if optTest ndvi_change (fun d => decide (d ≤ mkRat (-2) 10)) then
    ("Drought stress detected", "High")
  else if optTest ndvi_change (fun d => decide (d ≤ mkRat (-1) 10)) then
    ("Early vegetation stress", "Medium")
  else
    ("No drought signal detected", "Low")

/-- Cyclone decision rules, `src/app.py` lines 213-221: here `ndvi_change`
is a plain number (the code computes it unguarded), only `sar_change` is
optional. -/
def cyclone_rules (sar_change : Option ℚ) (ndvi_change : ℚ) : String × String :=
  if optTest sar_change (fun s => decide ((2 : ℚ) ≤ |s|)) && decide (ndvi_change ≤ mkRat (-2) 10) then
    ("Cyclone-related crop damage likely", "High")
  else if decide (ndvi_change ≤ mkRat (-15) 100) then
    ("Vegetation damage possible", "Medium")
  else
    ("No strong cyclone damage detected", "Low")

/-- The flat result dict of `analyze_flood`. -/
structure FloodResult where
  event : String
  sarBefore : Option ℚ
  sarAfter : Option ℚ
  sarChange : Option ℚ
  ndwiBefore : Option ℚ
  ndwiAfter : Option ℚ
  ndwiChange : Option ℚ
  assessment : String
  confidence : String
  explanation : String
deriving Repr, DecidableEq

/-- The flat result dict of `analyze_drought`. -/
structure DroughtResult where
  event : String
  ndviBefore : Option ℚ
  ndviAfter : Option ℚ
  ndviChange : Option ℚ
  assessment : String
  confidence : String
  explanation : String
deriving Repr, DecidableEq

/-- The flat result dict of `analyze_cyclone`. Note `ndviChange` is not
optional: the code computes it with unguarded subtraction, so whenever a
result is produced at all it is a number. -/
structure CycloneResult where
  event : String
  sarChange : Option ℚ
  ndviChange : ℚ
  assessment : String
  confidence : String
  explanation : String
deriving Repr, DecidableEq

/-- `analyze_flood` (`src/app.py` lines 121-162).  Both deltas are guarded
(`… if … is not None and … is not None else None`), and the NDWI means are
guarded on composite presence (`… if opt_b else None`), so this analyzer
never raises. -/
def analyze_flood (env : Env) : FloodResult :=
  let sar_before := safe_mean_vv env.sarBaseline
  let sar_after := safe_mean_vv env.sarEvent
  let sar_change := optDelta sar_before sar_after
  let ndwi_before := guarded_ndwi env.optBaseline
  let ndwi_after := guarded_ndwi env.optEvent
  let ndwi_change := optDelta ndwi_before ndwi_after
  let ac := flood_rules sar_change ndwi_change
  { event := "Flood"
    sarBefore := sar_before
    sarAfter := sar_after
    sarChange := sar_change
    ndwiBefore := ndwi_before
    ndwiAfter := ndwi_after
    ndwiChange := ndwi_change
    assessment := ac.1
    confidence := ac.2
    explanation := "Flood assessment based on SAR backscatter and NDWI moisture signal." }

/-- `analyze_drought` (`src/app.py` lines 164-195).  Unlike the flood
analyzer, the NDVI means are computed with NO composite guard:
`safe_mean(opt_b.normalizedDifference(["B8","B4"])…)` dereferences the
composite, so an absent baseline or event composite raises
`AttributeError` (`None` has no attribute `normalizedDifference`). -/
def analyze_drought (env : Env) : Except PyError DroughtResult :=
  match env.optBaseline with
  | none => .error .attributeError
  | some imgB =>
    match env.optEvent with
    | none => .error .attributeError
    | some imgA =>
      let ndvi_before := imgB.ndviMean
      let ndvi_after := imgA.ndviMean
      let ndvi_change := optDelta ndvi_before ndvi_after
      let ac := drought_rules ndvi_change
      .ok
        { event := "Drought"
          ndviBefore := ndvi_before
          ndviAfter := ndvi_after
          ndviChange := ndvi_change
          assessment := ac.1
          confidence := ac.2
          explanation := "Vegetation stress assessed using NDVI trend over time." }

/-- `analyze_cyclone` (`src/app.py` lines 197-230).
`sar_change = safe_mean(sar_a,…) - safe_mean(sar_b,…) if sar_a and sar_b
else None`: the guard tests only composite presence, so if both SAR
composites are present but either VV mean is absent the subtraction is
`None` arithmetic and raises `TypeError`.  `ndvi_change` is computed with
no guard at all: an absent optical composite raises `AttributeError`
(event composite is dereferenced first), and an absent NDVI mean raises
`TypeError` on the subtraction. -/
def analyze_cyclone (env : Env) : Except PyError CycloneResult :=
  let sarStep : Except PyError (Option ℚ) :=
    match env.sarEvent, env.sarBaseline with
    | some a, some b =>
      match a.vvMean, b.vvMean with
      | some x, some y => .ok (some (x - y))
      | _, _ => .error .typeError
    | _, _ => .ok none
  match sarStep with
  | .error e => .error e
  | .ok sar_change =>
    match env.optEvent with
    | none => .error .attributeError
    | some imgA =>
      match env.optBaseline with
      | none => .error .attributeError
      | some imgB =>
        match imgA.ndviMean, imgB.ndviMean with
        | some xa, some xb =>
          let ndvi_change := xa - xb
          let ac := cyclone_rules sar_change ndvi_change
          .ok
            { event := "Cyclone"
              sarChange := sar_change
              ndviChange := ndvi_change
              assessment := ac.1
              confidence := ac.2
              explanation := "Structural and vegetation damage assessed using SAR and NDVI." }
        | _, _ => .error .typeError

/-- Result of the event-type dispatch at `src/app.py` lines 242-247. -/
inductive RunOutcome where
  | flood : FloodResult → RunOutcome
  | drought : DroughtResult → RunOutcome
  | cyclone : CycloneResult → RunOutcome
deriving Repr, DecidableEq

/-- The dispatch `if event_type == "Flood": … elif event_type == "Drought":
… else: analyze_cyclone(aoi)` (`src/app.py` lines 242-247). -/
def run_event (event_type : String) (env : Env) : Except PyError RunOutcome :=
  if event_type = "Flood" then .ok (.flood (analyze_flood env))
  else if event_type = "Drought" then (analyze_drought env).map .drought
  else (analyze_cyclone env).map .cyclone

/-- A date window; dates are embedded as integers (ordinal days), only
their order matters to the script. -/
structure Window where
  start : Int
  stop : Int
deriving Repr, DecidableEq

/-- Outcome of one page run: either the script stopped at the date-range
check, or it ran an analysis and produced a result record. -/
inductive AppOutcome where
  | stopped : AppOutcome
  | result : RunOutcome → AppOutcome
deriving Repr, DecidableEq

/-- The whole scripted flow relevant to analysis: the date validation
`if baseline_start >= baseline_end or event_start >= event_end:
st.error(…); st.stop()` (`src/app.py` lines 76-78) followed, when the
button is pressed, by the event-type dispatch.  Note the validation
compares only within each window; it never compares the two windows with
each other. -/
def app_run (bw ew : Window) (event_type : String) (env : Env) :
    Except PyError AppOutcome :=
  if bw.start ≥ bw.stop ∨ ew.start ≥ ew.stop then .ok .stopped
  else (run_event event_type env).map .result

/-! ### Helper lemmas tying the analyzers to their rule tables -/

/-- The assessment/confidence pair of a flood result is exactly the rule
table applied to the deltas carried by the same result. -/
theorem flood_uses_rules (env : Env) :
    ((analyze_flood env).assessment, (analyze_flood env).confidence)
      = flood_rules (analyze_flood env).sarChange (analyze_flood env).ndwiChange := rfl

/-- Whenever the drought analyzer returns a result, its assessment and
confidence come from the drought rule table applied to its own delta. -/
theorem drought_uses_rules (env : Env) :
    Except.map (fun r => (r.assessment, r.confidence)) (analyze_drought env)
      = Except.map (fun r => drought_rules r.ndviChange) (analyze_drought env) := by
  rcases env with ⟨sb, se, ob, oe⟩
  cases ob <;> cases oe <;> rfl

/-- Whenever the cyclone analyzer returns a result, its assessment and
confidence come from the cyclone rule table applied to its own deltas. -/
theorem cyclone_uses_rules (env : Env) :
    Except.map (fun r => (r.assessment, r.confidence)) (analyze_cyclone env)
      = Except.map (fun r => cyclone_rules r.sarChange r.ndviChange) (analyze_cyclone env) := by
  rcases env with ⟨sb, se, ob, oe⟩
  rcases sb with _ | ⟨_ | vb⟩ <;> rcases se with _ | ⟨_ | va⟩ <;>
    rcases ob with _ | ⟨wb, _ | nb⟩ <;> rcases oe with _ | ⟨wa, _ | na⟩ <;> rfl

/-- A defined SAR drop of at least 3 dB fires the first flood rule. -/
theorem flood_rules_open_water (s : ℚ) (w : Option ℚ) (h : s ≤ -3) :
    flood_rules (some s) w = ("Open water flooding detected", "High") := by
  simp [flood_rules, optTest, h]

/-- Without a qualifying SAR drop, the flood rules reduce to the NDWI rule
and the fallback. -/
theorem flood_rules_fallback (s : ℚ) (w : Option ℚ) (h : ¬ s ≤ -3) :
    flood_rules (some s) w
      = (if optTest w (fun x => decide (mkRat 15 100 ≤ x))
         then ("Surface water / waterlogging detected", "Medium")
         else ("No strong flood signal detected", "Low")) := by
  simp [flood_rules, optTest, h]

/-- A defined NDVI drop of at least 0.2 fires the first drought rule. -/
theorem drought_rules_high (d : ℚ) (h : d ≤ mkRat (-2) 10) :
    drought_rules (some d) = ("Drought stress detected", "High") := by
  simp [drought_rules, optTest, h]

/-- A defined NDVI drop in (0.1, 0.2] fires the second drought rule. -/
theorem drought_rules_medium (d : ℚ) (h1 : mkRat (-2) 10 < d) (h2 : d ≤ mkRat (-1) 10) :
    drought_rules (some d) = ("Early vegetation stress", "Medium") := by
  simp [drought_rules, optTest, not_le.mpr h1, h2]

/-- A defined NDVI change above −0.1 falls through to the no-signal rule. -/
theorem drought_rules_low (d : ℚ) (h : mkRat (-1) 10 < d) :
    drought_rules (some d) = ("No drought signal detected", "Low") := by
  have hm : mkRat (-2) 10 < mkRat (-1) 10 := by decide
  have h1 : ¬ d ≤ mkRat (-2) 10 := not_le.mpr (hm.trans h)
  simp [drought_rules, optTest, h1, not_le.mpr h]

/-! ### Concrete backend responses used by the claim theorems -/

/-- Both SAR composites present (VV mean 0 in both windows), both optical
composites absent. -/
def envC1 : Env :=
  { sarBaseline := some ⟨some 0⟩, sarEvent := some ⟨some 0⟩,
    optBaseline := none, optEvent := none }

/-- Both optical composites present, but the baseline NDVI spatial mean is
absent (event NDVI mean 0.3); no SAR data. -/
def envC2 : Env :=
  { sarBaseline := none, sarEvent := none,
    optBaseline := some ⟨none, none⟩, optEvent := some ⟨none, some (mkRat 3 10)⟩ }

/-- All four composites absent. -/
def envAllAbsent : Env :=
  { sarBaseline := none, sarEvent := none, optBaseline := none, optEvent := none }

/-- SAR VV mean rises from 0 to 1.5 dB; optical composites absent. -/
def envC4 : Env :=
  { sarBaseline := some ⟨some 0⟩, sarEvent := some ⟨some (mkRat 3 2)⟩,
    optBaseline := none, optEvent := none }

/-- Optical composites present with NDVI mean 0 in both windows; no SAR. -/
def envC5 : Env :=
  { sarBaseline := none, sarEvent := none,
    optBaseline := some ⟨none, some 0⟩, optEvent := some ⟨none, some 0⟩ }

/-- Both SAR composites present but both VV spatial means absent; optical
composites present with all means 0. -/
def envC6 : Env :=
  { sarBaseline := some ⟨none⟩, sarEvent := some ⟨none⟩,
    optBaseline := some ⟨some 0, some 0⟩, optEvent := some ⟨some 0, some 0⟩ }

/-- SAR VV mean drops from 0 to −3.5 dB while the NDWI mean rises from 0
to 0.5: both the radar rule and the optical rule would fire. -/
def envC7 : Env :=
  { sarBaseline := some ⟨some 0⟩, sarEvent := some ⟨some (mkRat (-7) 2)⟩,
    optBaseline := some ⟨some 0, none⟩, optEvent := some ⟨some (mkRat 1 2), none⟩ }

/-- SAR VV mean rises from 0 to 2.5 dB; NDVI mean falls from 0 to −0.1. -/
def envC9 : Env :=
  { sarBaseline := some ⟨some 0⟩, sarEvent := some ⟨some (mkRat 5 2)⟩,
    optBaseline := some ⟨none, some 0⟩, optEvent := some ⟨none, some (mkRat (-1) 10)⟩ }

/-! ### Claim theorems -/

/-- C1: the claim says the analysis never raises on well-formed input with
valid windows, for every event type, even when composites are absent.  The
code violates this: with valid windows baseline [0,10], event [20,30] and
both optical composites absent, the cyclone analyzer dereferences the
absent optical event composite and raises AttributeError. -/
theorem C1_cyclone_raises_on_absent_optical :
    app_run ⟨0, 10⟩ ⟨20, 30⟩ "Cyclone" envC1 = .error .attributeError := rfl

/-- C2: the claim says an undefined vegetation-index delta yields an
explicit insufficient-data outcome.  The code instead falls through to the
no-signal branch: with both optical composites present but the baseline
NDVI mean absent, the drought analyzer returns the "No drought signal
detected" assessment with confidence Low. -/
theorem C2_drought_undefined_delta_no_signal :
    analyze_drought envC2 =
      .ok { event := "Drought", ndviBefore := none, ndviAfter := some (mkRat 3 10),
            ndviChange := none,
            assessment := "No drought signal detected", confidence := "Low",
            explanation := "Vegetation stress assessed using NDVI trend over time." } := rfl

/-- C3: the claim says that when every requested composite is absent the
caller receives a distinct InsufficientData outcome and no classification
runs.  The code has no such outcome: the flood run with all four
composites absent runs the classification and returns the Low-confidence
"No strong flood signal detected" assessment. -/
theorem C3_total_absence_low_no_signal :
    run_event "Flood" envAllAbsent =
      .ok (.flood
        { event := "Flood", sarBefore := none, sarAfter := none, sarChange := none,
          ndwiBefore := none, ndwiAfter := none, ndwiChange := none,
          assessment := "No strong flood signal detected", confidence := "Low",
          explanation := "Flood assessment based on SAR backscatter and NDWI moisture signal." }) := rfl

/-- C4 counterexample: with a defined SAR rise of +1.5 dB (which is > −3
and ≥ +1) the flood analyzer does NOT produce "Flooded standing crops
detected" with High confidence; no such rule exists in the code and the
result is the no-signal fallback. -/
theorem C4_counterexample_radar_rise :
    (analyze_flood envC4).sarChange = some (mkRat 3 2) ∧
    ¬ ((analyze_flood envC4).assessment = "Flooded standing crops detected" ∧
       (analyze_flood envC4).confidence = "High") := by
  exact ⟨by with_unfolding_all rfl, by with_unfolding_all decide⟩

/-- C4 amended: when the SAR delta is defined with −3 < Δsar and
Δsar ≥ +1, the flood classifier has no radar-rise rule: the label is never
"Flooded standing crops detected", and the result is decided by the NDWI
rule alone (waterlogging/Medium when Δndwi is defined and ≥ 0.15,
otherwise the no-signal fallback with Low). -/
theorem C4_no_flooded_crops_rule (env : Env) (s : ℚ)
    (hs : (analyze_flood env).sarChange = some s)
    (h1 : (-3 : ℚ) < s) ( _h2 : (1 : ℚ) ≤ s) :
    (analyze_flood env).assessment ≠ "Flooded standing crops detected" ∧
    ((analyze_flood env).assessment, (analyze_flood env).confidence)
      = (if optTest (analyze_flood env).ndwiChange (fun x => decide (mkRat 15 100 ≤ x))
         then ("Surface water / waterlogging detected", "Medium")
         else ("No strong flood signal detected", "Low")) := by
  have hpair := flood_uses_rules env
  rw [hs, flood_rules_fallback s _ (not_le.mpr h1)] at hpair
  refine ⟨fun hbad => ?_, hpair⟩
  have ha := congrArg Prod.fst hpair
  rw [hbad] at ha
  split at ha <;> simp at ha

/-- C4 amended, witness at the counterexample input: SAR delta +1.5 with
absent NDWI, instantiating the amended theorem. -/
theorem C4_no_flooded_crops_rule_witness :
    (analyze_flood envC4).assessment ≠ "Flooded standing crops detected" ∧
    ((analyze_flood envC4).assessment, (analyze_flood envC4).confidence)
      = ("No strong flood signal detected", "Low") := by
  have h := C4_no_flooded_crops_rule envC4 (mkRat 3 2) (by with_unfolding_all rfl) (by decide) (by decide)
  exact ⟨h.1, h.2.trans (by with_unfolding_all decide)⟩

/-- C5 counterexample: baseline [0,10] and event [5,20] violate the
cross-window invariant (event.start = 5 ≤ 10 = baseline.end), yet the
script does not stop: it proceeds and returns a drought analysis result,
so the claimed InvalidWindow rejection does not happen. -/
theorem C5_counterexample_overlap_not_rejected :
    ((5 : Int) ≤ 10) ∧
    app_run ⟨0, 10⟩ ⟨5, 20⟩ "Drought" envC5 =
      .ok (.result (.drought
        { event := "Drought", ndviBefore := some 0, ndviAfter := some 0,
          ndviChange := some 0,
          assessment := "No drought signal detected", confidence := "Low",
          explanation := "Vegetation stress assessed using NDVI trend over time." })) :=
  ⟨by decide, by with_unfolding_all rfl⟩

/-- C5 amended: the script stops before any analysis exactly when the
baseline or the event window has start ≥ end; the cross-window relation
between the two windows is never checked. -/
theorem C5_per_window_validation_only (bw ew : Window) (event_type : String) (env : Env) :
    app_run bw ew event_type env = .ok .stopped
      ↔ (bw.start ≥ bw.stop ∨ ew.start ≥ ew.stop) := by
  by_cases h : bw.start ≥ bw.stop ∨ ew.start ≥ ew.stop
  · simp [app_run, h]
  · simp only [app_run, h, if_false, iff_false]
    cases run_event event_type env <;> simp [Except.map]

/-- C6: the claim says every analyzer's delta is defined iff both operands
are, equals after − before when defined, and an absent operand never
causes a crash.  The flood analyzer satisfies this for both its indices,
but the cyclone analyzer crashes: with both SAR composites present and
both VV spatial means absent it evaluates None arithmetic and raises
TypeError. -/
theorem C6_cyclone_absent_mean_type_error :
    (∀ env : Env,
      (analyze_flood env).sarChange
          = optDelta (safe_mean_vv env.sarBaseline) (safe_mean_vv env.sarEvent) ∧
      (analyze_flood env).ndwiChange
          = optDelta (guarded_ndwi env.optBaseline) (guarded_ndwi env.optEvent)) ∧
    (∀ b a : ℚ, optDelta (some b) (some a) = some (a - b)) ∧
    (∀ b a : Option ℚ, (optDelta b a).isSome = (b.isSome && a.isSome)) ∧
    analyze_cyclone envC6 = .error .typeError := by
  refine ⟨fun env => ⟨rfl, rfl⟩, fun b a => rfl, fun b a => ?_, rfl⟩
  cases b <;> cases a <;> rfl

/-- C7: whenever the SAR delta is defined and at most −3.0, the flood
analyzer reports "Open water flooding detected" with High confidence,
whatever the NDWI delta is: the radar rule is checked first. -/
theorem C7_flood_radar_overrides_ndwi (env : Env) (s : ℚ)
    (hs : (analyze_flood env).sarChange = some s) (h : s ≤ -3) :
    (analyze_flood env).assessment = "Open water flooding detected" ∧
    (analyze_flood env).confidence = "High" := by
  have hpair := flood_uses_rules env
  rw [hs, flood_rules_open_water s _ h] at hpair
  exact ⟨congrArg Prod.fst hpair, congrArg Prod.snd hpair⟩

/-- C7 witness at Δsar = −3.5 and Δndwi = +0.5: the NDWI rule alone would
fire too, yet the radar rule wins. -/
theorem C7_flood_radar_overrides_ndwi_witness :
    (analyze_flood envC7).ndwiChange = some (mkRat 1 2) ∧
    (analyze_flood envC7).assessment = "Open water flooding detected" ∧
    (analyze_flood envC7).confidence = "High" := by
  have h := C7_flood_radar_overrides_ndwi envC7 (mkRat (-7) 2)
    (by with_unfolding_all rfl) (by decide)
  exact ⟨by with_unfolding_all rfl, h.1, h.2⟩

/-- C8: drought thresholds.  With a defined NDVI delta d, the High label
fires exactly when d ≤ −0.2 and the Medium label exactly when
−0.2 < d ≤ −0.1; in particular d = −0.10 gives "Early vegetation stress"
(Medium) and d = −0.2001 gives "Drought stress detected" (High).  The
analyzer's assessment/confidence pair always comes from these rules. -/
theorem C8_drought_thresholds :
    (∀ d : ℚ,
      (drought_rules (some d) = ("Drought stress detected", "High") ↔ d ≤ mkRat (-2) 10) ∧
      (drought_rules (some d) = ("Early vegetation stress", "Medium")
        ↔ (mkRat (-2) 10 < d ∧ d ≤ mkRat (-1) 10))) ∧
    drought_rules (some (mkRat (-1) 10)) = ("Early vegetation stress", "Medium") ∧
    drought_rules (some (mkRat (-2001) 10000)) = ("Drought stress detected", "High") ∧
    (∀ env : Env,
      Except.map (fun r => (r.assessment, r.confidence)) (analyze_drought env)
        = Except.map (fun r => drought_rules r.ndviChange) (analyze_drought env)) := by
  refine ⟨fun d => ⟨⟨fun hEq => ?_, fun h => drought_rules_high d h⟩,
                    ⟨fun hEq => ?_, fun h => drought_rules_medium d h.1 h.2⟩⟩,
          by decide, by decide, drought_uses_rules⟩
  · by_contra hc
    rcases le_or_lt d (mkRat (-1) 10) with h2 | h2
    · rw [drought_rules_medium d (not_le.mp hc) h2] at hEq
      exact absurd hEq (by decide)
    · rw [drought_rules_low d h2] at hEq
      exact absurd hEq (by decide)
  · rcases le_or_lt d (mkRat (-2) 10) with h1 | h1
    · rw [drought_rules_high d h1] at hEq
      exact absurd hEq (by decide)
    · rcases le_or_lt d (mkRat (-1) 10) with h2 | h2
      · exact ⟨h1, h2⟩
      · rw [drought_rules_low d h2] at hEq
        exact absurd hEq (by decide)

/-- C9: with Δsar = 2.5 and Δndvi = −0.1 the cyclone High rule fails on
its NDVI leg, the Medium rule (Δndvi ≤ −0.15) fails too, and the result is
"No strong cyclone damage detected" with Low confidence — both at the
rule-table level and for a concrete run realizing those deltas. -/
theorem C9_cyclone_conjunctive_rule :
    cyclone_rules (some (mkRat 5 2)) (mkRat (-1) 10)
        = ("No strong cyclone damage detected", "Low") ∧
    analyze_cyclone envC9 =
      .ok { event := "Cyclone", sarChange := some (mkRat 5 2),
            ndviChange := mkRat (-1) 10,
            assessment := "No strong cyclone damage detected", confidence := "Low",
            explanation := "Structural and vegetation damage assessed using SAR and NDVI." } :=
  ⟨by decide, by with_unfolding_all rfl⟩

/-- C10: every result record's confidence is one of High, Medium, Low, and
it is Low exactly when the assessment is the event type's no-signal
fallback label; the analyzers' records always carry the pair produced by
their rule tables. -/
theorem C10_confidence_partition :
    (∀ s w : Option ℚ,
      ((flood_rules s w).2 = "High" ∨ (flood_rules s w).2 = "Medium"
          ∨ (flood_rules s w).2 = "Low") ∧
      ((flood_rules s w).2 = "Low" ↔ (flood_rules s w).1 = "No strong flood signal detected")) ∧
    (∀ o : Option ℚ,
      ((drought_rules o).2 = "High" ∨ (drought_rules o).2 = "Medium"
          ∨ (drought_rules o).2 = "Low") ∧
      ((drought_rules o).2 = "Low" ↔ (drought_rules o).1 = "No drought signal detected")) ∧
    (∀ (s : Option ℚ) (n : ℚ),
      ((cyclone_rules s n).2 = "High" ∨ (cyclone_rules s n).2 = "Medium"
          ∨ (cyclone_rules s n).2 = "Low") ∧
      ((cyclone_rules s n).2 = "Low" ↔ (cyclone_rules s n).1 = "No strong cyclone damage detected")) ∧
    (∀ env : Env,
      ((analyze_flood env).assessment, (analyze_flood env).confidence)
        = flood_rules (analyze_flood env).sarChange (analyze_flood env).ndwiChange) ∧
    (∀ env : Env,
      Except.map (fun r => (r.assessment, r.confidence)) (analyze_drought env)
        = Except.map (fun r => drought_rules r.ndviChange) (analyze_drought env)) ∧
    (∀ env : Env,
      Except.map (fun r => (r.assessment, r.confidence)) (analyze_cyclone env)
        = Except.map (fun r => cyclone_rules r.sarChange r.ndviChange) (analyze_cyclone env)) := by
  refine ⟨fun s w => ?_, fun o => ?_, fun s n => ?_,
          flood_uses_rules, drought_uses_rules, cyclone_uses_rules⟩
  · unfold flood_rules
    split_ifs <;> exact ⟨by decide, by decide⟩
  · unfold drought_rules
    split_ifs <;> exact ⟨by decide, by decide⟩
  · unfold cyclone_rules
    split_ifs <;> exact ⟨by decide, by decide⟩
